import Mathlib

/-!
Verification of the API client of the blue-dashboard repository
(src/frontend/services/api_client.py), shallowly embedded in Lean 4.

The client is stateless apart from its configuration; each logical call
(health check, file upload, text processing) issues one HTTP request and
passes the outcome through the shared handler `_handle_response`.  We embed
the pure decision logic of the Python code: a server interaction is an
`HttpOutcome` (either a received `HttpResponse`, or a transport-level
exception raised by the `requests` session call), and each operation maps
outcomes to either a parsed JSON result or a surfaced Python exception.
-/

/-- JSON values, as produced by Python's `json` module from a response body.
Numbers are modelled as integers (no claim involves fractional values);
objects are the dictionary's entries in order, with distinct keys. -/
inductive Json where
  | null
  | bool (b : Bool)
  | num (n : Int)
  | str (s : String)
  | arr (elems : List Json)
  | obj (fields : List (String × Json))

/-- Dictionary field access on a JSON object (`none` when the value is not
an object or lacks the key). -/
def Json.getField : Json → String → Option Json
  | .obj fields, key => fields.lookup key
  | _, _ => none

/-- The Python type name of a parsed JSON value, as it appears in an
`AttributeError` message. -/
def pyTypeName : Json → String
  | .null => "NoneType"
  | .bool _ => "bool"
  | .num _ => "int"
  | .str _ => "str"
  | .arr _ => "list"
  | .obj _ => "dict"

/-- The code points Python's `str.strip()` (no argument) treats as
whitespace, i.e. those for which `str.isspace()` holds: the ASCII
characters TAB, LF, VT, FF, CR (U+0009..U+000D), the separators FS, GS,
RS, US (U+001C..U+001F), SPACE (U+0020), NEL (U+0085), NO-BREAK SPACE
(U+00A0), OGHAM SPACE MARK (U+1680), the EN-QUAD..HAIR-SPACE range
(U+2000..U+200A), LINE SEPARATOR (U+2028), PARAGRAPH SEPARATOR (U+2029),
NARROW NO-BREAK SPACE (U+202F), MEDIUM MATHEMATICAL SPACE (U+205F) and
IDEOGRAPHIC SPACE (U+3000). -/
def pyWhitespaceCodes : List Nat :=
  [0x09, 0x0A, 0x0B, 0x0C, 0x0D, 0x1C, 0x1D, 0x1E, 0x1F, 0x20, 0x85, 0xA0,
   0x1680, 0x2000, 0x2001, 0x2002, 0x2003, 0x2004, 0x2005, 0x2006, 0x2007,
   0x2008, 0x2009, 0x200A, 0x2028, 0x2029, 0x202F, 0x205F, 0x3000]

/-- Python `str.isspace()` on a single character, the predicate behind the
ends-trimming of `str.strip()`. -/
def pyIsSpace (c : Char) : Bool :=
  pyWhitespaceCodes.contains c.toNat

/-- `str.strip()` on the underlying character list: drop whitespace from
both ends. -/
def pyStripList (l : List Char) : List Char :=
  ((l.dropWhile pyIsSpace).reverse.dropWhile pyIsSpace).reverse

/-- Python `text.strip()`. -/
def pyStrip (s : String) : String :=
  ⟨pyStripList s.toList⟩

/-- Python `base_url.rstrip('/')`: drop trailing slash characters. -/
def pyRstripSlash (s : String) : String :=
  ⟨(s.toList.reverse.dropWhile (fun c => c == '/')).reverse⟩

/-- An HTTP response as seen by `_handle_response`: the status code, the raw
body text (`response.text`), and the result of parsing the body as JSON
(`response.json()`), which is `none` exactly when parsing raises a
`ValueError`/`JSONDecodeError`. -/
structure HttpResponse where
  statusCode : Nat
  bodyText : String
  bodyJson : Option Json

/-- The Python exceptions that can surface from the client.
`apiValidation`, `apiServer` and `apiConnection` are the custom classes
`ApiValidationError` (a `ValueError` subclass), `ApiServerError` and
`ApiConnectionError`; the first two carry the status code and the extracted
error message (a Python value, embedded as `Json`) that the source renders
into the exception's f-string.  `valueError` is a plain `ValueError`
(raised by the `process_text` pre-check and by the constructor),
`attributeError` is an `AttributeError`, and `transportExc` is a raw
`requests` transport exception (e.g. `ConnectionError`, `Timeout`) that
propagates uncaught. -/
inductive PyError where
  | apiValidation (status : Nat) (message : Json)
  | apiServer (status : Nat) (message : Json)
  | apiConnection (message : String)
  | valueError (message : String)
  | attributeError (message : String)
  | transportExc (message : String)

/-- Validation-kind errors: `ApiValidationError` and its base class
`ValueError` (the source's `ApiValidationError` subclasses `ValueError`,
so both are caught by an `except ValueError`). -/
def PyError.isValidationKind : PyError → Bool
  | .apiValidation _ _ => true
  | .valueError _ => true
  | _ => false

/-- Connection-kind errors of the client's taxonomy: `ApiConnectionError`,
and raw transport exceptions from `requests`. -/
def PyError.isConnectionKind : PyError → Bool
  | .apiConnection _ => true
  | .transportExc _ => true
  | _ => false

/-- The message on the `ApiConnectionError` raised when a successful
response's body fails to parse as JSON (the `JSONDecodeError` is a
`RequestException`, caught by the outer handler and wrapped). -/
def jsonDecodeFailureMessage : String :=
  "Failed to connect to the API: JSONDecodeError"

/-- The error-message extraction of the `except HTTPError` handler:

    error_data = e.response.json()
    error_message = error_data.get('error', e.response.text)

with a `ValueError` from `.json()` caught and replaced by the raw body
text.  When the body parses to a JSON value that is not an object, the
`.get` attribute lookup raises an `AttributeError`, which is caught by
neither `except` clause. -/
def extractErrorMessage (resp : HttpResponse) : Except PyError Json :=
  match resp.bodyJson with
  | none => .ok (.str resp.bodyText)
  | some (.obj fields) => .ok ((fields.lookup "error").getD (.str resp.bodyText))
  | some other =>
      .error (.attributeError
        ("'" ++ pyTypeName other ++ "' object has no attribute 'get'"))

/-- `ApiClient._handle_response`.  `response.raise_for_status()` raises an
`HTTPError` exactly when the status code is in [400, 600); the handler then
extracts a message and classifies by status range (its final `else` branch,
raising `ApiConnectionError`, is unreachable).  Otherwise a 204 returns an
empty dict, and any other status returns the parsed JSON body, with a JSON
parse failure surfacing as an `ApiConnectionError` via the
`except RequestException` clause. -/
def handleResponse (resp : HttpResponse) : Except PyError Json :=
  if 400 ≤ resp.statusCode ∧ resp.statusCode < 600 then
    match extractErrorMessage resp with
    | .error e => .error e
    | .ok msg =>
        if 400 ≤ resp.statusCode ∧ resp.statusCode < 500 then
          .error (.apiValidation resp.statusCode msg)
        else if 500 ≤ resp.statusCode ∧ resp.statusCode < 600 then
          .error (.apiServer resp.statusCode msg)
        else
          .error (.apiConnection "Unexpected HTTP Error")
  else if resp.statusCode = 204 then
    .ok (.obj [])
  else
    match resp.bodyJson with
    | some j => .ok j
    | none => .error (.apiConnection jsonDecodeFailureMessage)

/-- The outcome of one call on the `requests` session: either an HTTP
response was received, or the call raised a transport-level exception. -/
inductive HttpOutcome where
  | response (r : HttpResponse)
  | exc (message : String)

/-- What each operation's body does with the session-call outcome: a
received response goes through `_handle_response`; a transport exception
propagates as itself.  (Each operation wraps this in
`except ApiConnectionError as e: raise e`, which re-raises the caught
exception unchanged and lets every other exception pass through, hence is
the identity on outcomes apart from logging.) -/
def processOutcome : HttpOutcome → Except PyError Json
  | .response r => handleResponse r
  | .exc m => .error (.transportExc m)

/-- `ApiClient.health_check`: GET `{base}/health`, then the shared response
handling. -/
def health_check (server : HttpOutcome) : Except PyError Json :=
  processOutcome server

/-- `ApiClient.upload_file`: multipart POST of `file_content` under field
`file` to `{base}/upload`, then the shared response handling. -/
def upload_file (_base_url : String) (_file_content : List Nat)
    (_file_name : String) (server : HttpOutcome) : Except PyError Json :=
  processOutcome server

/-- The JSON POST issued by `process_text`: its URL and payload. -/
structure TextRequest where
  url : String
  payload : Json

/-- The payload construction of `process_text`:

    payload = {"text": text}
    if document_name:
        payload["name"] = document_name

`if document_name:` is Python truthiness on an `Optional[str]`: false for
`None` and for the empty string. -/
def buildTextPayload (text : String) (document_name : Option String) : Json :=
  match document_name with
  | some n =>
      if n ≠ "" then .obj [("text", .str text), ("name", .str n)]
      else .obj [("text", .str text)]
  | none => .obj [("text", .str text)]

/-- `ApiClient.process_text`: raises `ValueError` when
`not text or not text.strip()`, before building any request; otherwise
POSTs the payload to `{base}/process-text` and handles the outcome.  The
second component records the HTTP requests issued during the call. -/
def process_text (base_url text : String) (document_name : Option String)
    (server : HttpOutcome) : Except PyError Json × List TextRequest :=
  if text = "" ∨ pyStrip text = "" then
    (.error (.valueError "Text content cannot be empty."), [])
  else
    let req : TextRequest :=
      ⟨base_url ++ "/process-text", buildTextPayload text document_name⟩
    (match server with
     | .response r => handleResponse r
     | .exc m => .error (.transportExc m), [req])

/-- The client's configuration, immutable after construction. -/
structure ClientConfig where
  base_url : String
  timeout : Nat
  retries : Nat

/-- `ApiClient.__init__`: raises `ValueError` when `not base_url` (i.e. the
string is empty), otherwise stores `base_url.rstrip('/')` together with the
timeout and retry count. -/
def mkApiClient (base_url : String) (timeout retries : Nat) :
    Except PyError ClientConfig :=
  if base_url = "" then
    .error (.valueError "API base_url cannot be empty.")
  else
    .ok ⟨pyRstripSlash base_url, timeout, retries⟩

/-- The `status_forcelist` of the retry configuration in
`ApiClient.__init__`. -/
def transient_codes : List Nat := [429, 500, 502, 503, 504]

/-- An outcome that triggers a retry: a response whose status is in the
transient set. -/
def isTransientOutcome : HttpOutcome → Bool
  | .response r => decide (r.statusCode ∈ transient_codes)
  | .exc _ => false

/-- Modelled from the spec: the retry engine itself
(`urllib3.util.retry.Retry`, mounted via `HTTPAdapter`) is third-party code
not present in this repository; `ApiClient.__init__` only configures it
with `total=retries`, `status_forcelist=[429, 500, 502, 503, 504]` and
`backoff_factor=1`, commented "Wait 1s, 2s, 4s between retries".  Following
the spec's words — retry only on the five transient status codes, at most
`retries` times, sleeping exponentially growing delays 1s, 2s, 4s, ...,
then process the final response or transport exception by the normal
response-handling rules — this function runs one logical call:
`outcomes i` is what the i-th attempt of the wire returns, `fuel` the
remaining retry budget, `attempt` the index of the current attempt.  It
returns the caller-visible result, the number of retries performed, and
the list of backoff delays slept (in seconds). -/
def callWithRetryAux (outcomes : Nat → HttpOutcome) :
    Nat → Nat → Except PyError Json × Nat × List Nat
  | attempt, 0 => (processOutcome (outcomes attempt), 0, [])
  | attempt, fuel + 1 =>
      match outcomes attempt with
      | .response r =>
          if r.statusCode ∈ transient_codes then
            let rest := callWithRetryAux outcomes (attempt + 1) fuel
            (rest.1, rest.2.1 + 1, 2 ^ attempt :: rest.2.2)
          else (processOutcome (outcomes attempt), 0, [])
      | .exc _ => (processOutcome (outcomes attempt), 0, [])

/-- Modelled from the spec: a full logical call with the configured retry
count, starting at attempt 0. -/
def callWithRetry (retries : Nat) (outcomes : Nat → HttpOutcome) :
    Except PyError Json × Nat × List Nat :=
  callWithRetryAux outcomes 0 retries

/-- Characterisation of the retry loop from an arbitrary starting attempt:
at most `fuel` retries are performed, the delays slept are the consecutive
powers of two starting at `2 ^ s`, and the caller-visible result is the
normal processing of the final attempt's outcome. -/
theorem callWithRetryAux_spec (outcomes : Nat → HttpOutcome) :
    ∀ (fuel s : Nat),
      (callWithRetryAux outcomes s fuel).2.1 ≤ fuel ∧
      (callWithRetryAux outcomes s fuel).2.2 =
        (List.range (callWithRetryAux outcomes s fuel).2.1).map
          (fun k => 2 ^ (s + k)) ∧
      (callWithRetryAux outcomes s fuel).1 =
        processOutcome (outcomes (s + (callWithRetryAux outcomes s fuel).2.1)) := by
  intro fuel
  induction fuel with
  | zero => intro s; simp [callWithRetryAux]
  | succ n ih =>
      intro s
      cases h : outcomes s with
      | response r =>
          by_cases ht : r.statusCode ∈ transient_codes
          · obtain ⟨ih1, ih2, ih3⟩ := ih (s + 1)
            simp only [callWithRetryAux, h]
            rw [if_pos ht]
            dsimp only
            refine ⟨by omega, ?_, ?_⟩
            · rw [ih2, List.range_succ_eq_map, List.map_cons, List.map_map]
              refine congrArg₂ _ (by simp) ?_
              refine List.map_congr_left fun a _ => ?_
              simp only [Function.comp_apply]
              refine congrArg (fun e => 2 ^ e) (by omega)
            · rw [ih3]
              refine congrArg _ (congrArg _ (by omega))
          · simp [callWithRetryAux, h, ht]
      | exc m => simp [callWithRetryAux, h]

/-- When every attempt that the budget allows meets a transient-status
response, the loop performs exactly `fuel` retries. -/
theorem callWithRetryAux_all_transient (outcomes : Nat → HttpOutcome) :
    ∀ (fuel s : Nat),
      (∀ i, i < fuel → isTransientOutcome (outcomes (s + i)) = true) →
      (callWithRetryAux outcomes s fuel).2.1 = fuel := by
  intro fuel
  induction fuel with
  | zero => intro s _; simp [callWithRetryAux]
  | succ n ih =>
      intro s h
      have h0 := h 0 (by omega)
      cases he : outcomes s with
      | exc m => rw [show s + 0 = s by omega, he] at h0; simp [isTransientOutcome] at h0
      | response r =>
          rw [show s + 0 = s by omega, he] at h0
          have ht : r.statusCode ∈ transient_codes := by
            simpa [isTransientOutcome] using h0
          have hrec := ih (s + 1) (fun i hi => by
            have := h (i + 1) (by omega)
            rwa [show s + (i + 1) = s + 1 + i by omega] at this)
          simp only [callWithRetryAux, he]
          rw [if_pos ht]
          dsimp only
          omega

/-- A string all of whose characters are Python whitespace strips to the
empty string. -/
theorem pyStrip_eq_empty {text : String} (h : text.toList.all pyIsSpace = true) :
    pyStrip text = "" := by
  have h1 : text.toList.dropWhile pyIsSpace = [] :=
    List.dropWhile_eq_nil_iff.mpr (by simpa [List.all_eq_true] using h)
  have h2 : pyStripList text.toList = [] := by
    unfold pyStripList
    rw [h1]
    rfl
  unfold pyStrip
  rw [h2]

/-- Claim C1: for every text input that is empty or consists only of
whitespace, `process_text` fails with a validation-kind error (the plain
`ValueError` is the base class of `ApiValidationError`) before issuing any
HTTP request, for every base URL, optional document name, and server
behaviour. -/
theorem claim_C1_process_text_empty_text (base text : String)
    (document_name : Option String) (server : HttpOutcome)
    (h : text.toList.all pyIsSpace = true) :
    process_text base text document_name server =
      (.error (.valueError "Text content cannot be empty."), []) ∧
    PyError.isValidationKind (.valueError "Text content cannot be empty.") = true := by
  refine ⟨?_, rfl⟩
  unfold process_text
  rw [if_pos (Or.inr (pyStrip_eq_empty h))]

/-- Witness for claim C1: a whitespace-only text mixing a space, a
no-break space (U+00A0) and a tab, a concrete document name and a server
that would refuse the connection. -/
theorem claim_C1_process_text_empty_text_witness :
    (("  \t " : String).toList.all pyIsSpace = true) ∧
    process_text "http://x/api" "  \t " (some "doc") (.exc "refused") =
      (.error (.valueError "Text content cannot be empty."), []) :=
  ⟨by decide,
   (claim_C1_process_text_empty_text "http://x/api" "  \t " (some "doc")
     (.exc "refused") (by decide)).1⟩

/-- Claim C7: every 2xx response other than 204 whose body is valid JSON
is returned to the caller as exactly the parsed JSON value, with no field
added, lost, or transformed; in particular `health_check` passes it
through. -/
theorem claim_C7_success_json_roundtrip (r : HttpResponse) (j : Json)
    (h1 : 200 ≤ r.statusCode) (h2 : r.statusCode < 300)
    (h3 : r.statusCode ≠ 204) (h4 : r.bodyJson = some j) :
    handleResponse r = .ok j ∧ health_check (.response r) = .ok j := by
  have hmain : handleResponse r = .ok j := by
    unfold handleResponse
    rw [if_neg (by omega), if_neg h3, h4]
  exact ⟨hmain, hmain⟩

/-- Witness for claim C7: the spec scenario of a health check answered by
a 200 response with body consisting of a status and a timestamp field. -/
theorem claim_C7_success_json_roundtrip_witness :
    (200 ≤ (200 : Nat) ∧ (200 : Nat) < 300 ∧ (200 : Nat) ≠ 204) ∧
    health_check (.response ⟨200, "\x7b\"status\": \"ok\", \"timestamp\": \"T\"\x7d",
        some (.obj [("status", .str "ok"), ("timestamp", .str "T")])⟩) =
      .ok (.obj [("status", .str "ok"), ("timestamp", .str "T")]) :=
  ⟨⟨by decide, by decide, by decide⟩,
   (claim_C7_success_json_roundtrip
     ⟨200, "\x7b\"status\": \"ok\", \"timestamp\": \"T\"\x7d",
       some (.obj [("status", .str "ok"), ("timestamp", .str "T")])⟩
     (.obj [("status", .str "ok"), ("timestamp", .str "T")])
     (by decide) (by decide) (by decide) rfl).2⟩

/-- Claim C8: a 204 response yields the empty dictionary whatever the body
holds, through the shared handler and through each of the three
operations. -/
theorem claim_C8_204_empty_result (bodyText : String) (bodyJson : Option Json)
    (base file_name : String) (file_content : List Nat)
    (document_name : Option String) :
    handleResponse ⟨204, bodyText, bodyJson⟩ = .ok (.obj []) ∧
    health_check (.response ⟨204, bodyText, bodyJson⟩) = .ok (.obj []) ∧
    upload_file base file_content file_name
      (.response ⟨204, bodyText, bodyJson⟩) = .ok (.obj []) ∧
    (process_text base "x" document_name
      (.response ⟨204, bodyText, bodyJson⟩)).1 = .ok (.obj []) := by
  have hmain : handleResponse ⟨204, bodyText, bodyJson⟩ = .ok (.obj []) := by
    simp [handleResponse]
  refine ⟨hmain, hmain, hmain, ?_⟩
  unfold process_text
  rw [if_neg (by decide)]
  exact hmain

/-- The first element surviving a `dropWhile` does not satisfy the
predicate. -/
theorem head?_dropWhile_false {α : Type} (p : α → Bool) :
    ∀ (l : List α) (c : α), (l.dropWhile p).head? = some c → p c = false := by
  intro l
  induction l with
  | nil => intro c hc; simp at hc
  | cons a t ih =>
      intro c hc
      rw [List.dropWhile_cons] at hc
      by_cases hpa : p a = true
      · rw [if_pos hpa] at hc
        exact ih c hc
      · rw [if_neg hpa] at hc
        have hac : a = c := by simpa using hc
        subst hac
        simpa using hpa

/-- Claim C9: client construction fails exactly when the base URL is the
empty string; for every non-empty base URL it succeeds, keeps the timeout
and retry count, and stores the base URL with its trailing slash
characters stripped: the input is the stored value followed by some run of
slashes, and the stored value does not end in a slash. -/
theorem claim_C9_constructor (u : String) (t r : Nat) :
    ((∃ e, mkApiClient u t r = .error e) ↔ u = "") ∧
    (u ≠ "" → ∃ k,
      mkApiClient u t r = .ok ⟨pyRstripSlash u, t, r⟩ ∧
      u.toList = (pyRstripSlash u).toList ++ List.replicate k '/' ∧
      ∀ c, (pyRstripSlash u).toList.getLast? = some c → c ≠ '/') := by
  constructor
  · constructor
    · rintro ⟨e, he⟩
      by_contra hne
      unfold mkApiClient at he
      rw [if_neg hne] at he
      exact Except.noConfusion he
    · intro h
      subst h
      exact ⟨.valueError "API base_url cannot be empty.", by unfold mkApiClient; rw [if_pos rfl]⟩
  · intro hu
    refine ⟨(u.toList.reverse.takeWhile (fun c => c == '/')).length, ?_, ?_, ?_⟩
    · unfold mkApiClient
      rw [if_neg hu]
    · have hsplit : u.toList.reverse.takeWhile (fun c => c == '/') ++
          u.toList.reverse.dropWhile (fun c => c == '/') = u.toList.reverse :=
        List.takeWhile_append_dropWhile _ _
      have hrep : u.toList.reverse.takeWhile (fun c => c == '/') =
          List.replicate (u.toList.reverse.takeWhile (fun c => c == '/')).length '/' :=
        List.eq_replicate_length.mpr
          (fun b hb => by simpa using List.mem_takeWhile_imp hb)
      have hstored : (pyRstripSlash u).toList =
          (u.toList.reverse.dropWhile (fun c => c == '/')).reverse := rfl
      calc u.toList = u.toList.reverse.reverse := by rw [List.reverse_reverse]
        _ = (u.toList.reverse.takeWhile (fun c => c == '/') ++
              u.toList.reverse.dropWhile (fun c => c == '/')).reverse := by rw [hsplit]
        _ = (u.toList.reverse.dropWhile (fun c => c == '/')).reverse ++
              (u.toList.reverse.takeWhile (fun c => c == '/')).reverse := by
                rw [List.reverse_append]
        _ = (pyRstripSlash u).toList ++
              List.replicate (u.toList.reverse.takeWhile (fun c => c == '/')).length '/' := by
                refine congrArg₂ _ hstored.symm ?_
                conv_lhs => rw [hrep]
                rw [List.reverse_replicate]
    · intro c hc
      have hstored : (pyRstripSlash u).toList =
          (u.toList.reverse.dropWhile (fun c => c == '/')).reverse := rfl
      rw [hstored, List.getLast?_reverse] at hc
      have := head?_dropWhile_false (fun c => c == '/') u.toList.reverse c hc
      simpa using this

/-- Witness for claim C9: a base URL carrying two trailing slashes. -/
theorem claim_C9_constructor_witness :
    ("http://x/api//" : String) ≠ "" ∧
    ∃ k, mkApiClient "http://x/api//" 30 3 =
        .ok ⟨pyRstripSlash "http://x/api//", 30, 3⟩ ∧
      ("http://x/api//" : String).toList =
        (pyRstripSlash "http://x/api//").toList ++ List.replicate k '/' ∧
      ∀ c, (pyRstripSlash "http://x/api//").toList.getLast? = some c → c ≠ '/' :=
  ⟨by decide, (claim_C9_constructor "http://x/api//" 30 3).2 (by decide)⟩

/-- Claim C10: for accepted text, process_text issues exactly one request,
to `{base}/process-text`, whose payload always carries the text field,
carries the name field exactly when the document name argument is a
non-empty string, and omits it both for None and for the empty string. -/
theorem claim_C10_payload_name_field (base text : String)
    (document_name : Option String) (server : HttpOutcome)
    (h : pyStrip text ≠ "") :
    (process_text base text document_name server).2 =
      [⟨base ++ "/process-text", buildTextPayload text document_name⟩] ∧
    (buildTextPayload text document_name).getField "text" = some (.str text) ∧
    (∀ n, document_name = some n → n ≠ "" →
      (buildTextPayload text document_name).getField "name" = some (.str n)) ∧
    ((document_name = none ∨ document_name = some "") →
      (buildTextPayload text document_name).getField "name" = none) := by
  have hcond : ¬(text = "" ∨ pyStrip text = "") := by
    rintro (h1 | h2)
    · subst h1
      exact h rfl
    · exact h h2
  refine ⟨?_, ?_, ?_, ?_⟩
  · unfold process_text
    rw [if_neg hcond]
  · cases document_name with
    | none => rfl
    | some n =>
        by_cases hn : n = ""
        · subst hn; rfl
        · show (if n ≠ "" then Json.obj [("text", Json.str text), ("name", Json.str n)]
              else Json.obj [("text", Json.str text)]).getField "text" =
            some (Json.str text)
          rw [if_pos hn]
          rfl
  · intro n hn hne
    subst hn
    show (if n ≠ "" then Json.obj [("text", Json.str text), ("name", Json.str n)]
        else Json.obj [("text", Json.str text)]).getField "name" = some (Json.str n)
    rw [if_pos hne]
    rfl
  · rintro (hn | hn) <;> subst hn <;> rfl

/-- Witness for claim C10: concrete text, document name and server. -/
theorem claim_C10_payload_name_field_witness :
    pyStrip "hello" ≠ "" ∧
    (process_text "http://x/api" "hello" (some "doc") (.exc "refused")).2 =
      [⟨"http://x/api" ++ "/process-text", buildTextPayload "hello" (some "doc")⟩] :=
  ⟨by decide,
   (claim_C10_payload_name_field "http://x/api" "hello" (some "doc")
     (.exc "refused") (by decide)).1⟩

/-- Claim C4 counterexample: a health check answered by a 404 with an
error field surfaces an `ApiValidationError` to the caller (the
`except ApiConnectionError as e: raise e` clause does not catch it), not a
connection-kind error. -/
theorem claim_C4_counterexample :
    health_check (.response ⟨404, "\x7b\"error\": \"not found\"\x7d",
        some (.obj [("error", .str "not found")])⟩) =
      .error (.apiValidation 404 (.str "not found")) ∧
    PyError.isConnectionKind (.apiValidation 404 (.str "not found")) = false :=
  ⟨rfl, rfl⟩

/-- Claim C4 (amended): `health_check` surfaces the error of the shared
response handling unchanged — a validation error for a 4xx response, a
server error for a 5xx response — and a transport failure propagates as
the raw transport exception; failures are not converted into connection
errors. -/
theorem claim_C4_health_check_errors :
    (∀ r msg, 400 ≤ r.statusCode → r.statusCode < 500 →
      extractErrorMessage r = .ok msg →
      health_check (.response r) = .error (.apiValidation r.statusCode msg)) ∧
    (∀ r msg, 500 ≤ r.statusCode → r.statusCode < 600 →
      extractErrorMessage r = .ok msg →
      health_check (.response r) = .error (.apiServer r.statusCode msg)) ∧
    (∀ m, health_check (.exc m) = .error (.transportExc m)) ∧
    (∀ r, health_check (.response r) = handleResponse r) := by
  refine ⟨?_, ?_, fun m => rfl, fun r => rfl⟩
  · intro r msg h1 h2 hex
    show handleResponse r = _
    unfold handleResponse
    rw [if_pos (⟨h1, by omega⟩ : 400 ≤ r.statusCode ∧ r.statusCode < 600), hex]
    exact if_pos ⟨h1, h2⟩
  · intro r msg h1 h2 hex
    show handleResponse r = _
    unfold handleResponse
    rw [if_pos (⟨by omega, h2⟩ : 400 ≤ r.statusCode ∧ r.statusCode < 600), hex]
    show (if 400 ≤ r.statusCode ∧ r.statusCode < 500 then
        Except.error (PyError.apiValidation r.statusCode msg)
      else if 500 ≤ r.statusCode ∧ r.statusCode < 600 then
        Except.error (PyError.apiServer r.statusCode msg)
      else Except.error (PyError.apiConnection "Unexpected HTTP Error")) =
      Except.error (PyError.apiServer r.statusCode msg)
    rw [if_neg (by omega : ¬(400 ≤ r.statusCode ∧ r.statusCode < 500)),
      if_pos (⟨h1, h2⟩ : 500 ≤ r.statusCode ∧ r.statusCode < 600)]

/-- Witness for the amended claim C4: a 418 response with a non-JSON body
surfaces a validation error with the raw body as its message. -/
theorem claim_C4_health_check_errors_witness :
    (400 ≤ (418 : Nat) ∧ (418 : Nat) < 500 ∧
      extractErrorMessage ⟨418, "teapot", none⟩ = .ok (.str "teapot")) ∧
    health_check (.response ⟨418, "teapot", none⟩) =
      .error (.apiValidation 418 (.str "teapot")) :=
  ⟨⟨by decide, by decide, rfl⟩,
   claim_C4_health_check_errors.1 ⟨418, "teapot", none⟩ (.str "teapot")
     (by decide) (by decide) rfl⟩

/-- Claim C5 counterexample: a 300 response never reaches the branch that
the claim describes, because `raise_for_status` only fires on [400, 600):
with a JSON body the parsed body is returned as a success, and with a
non-JSON body a connection-kind error — not a server-kind one — is
raised. -/
theorem claim_C5_counterexample :
    handleResponse ⟨300, "\x7b\x7d", some (.obj [])⟩ = .ok (.obj []) ∧
    handleResponse ⟨300, "Multiple Choices", none⟩ =
      .error (.apiConnection jsonDecodeFailureMessage) :=
  ⟨rfl, rfl⟩

/-- Claim C5 (amended): for a status outside both the [200,300) success
range and the [400,600) error range, `raise_for_status` does not fire, so
the response is handled like a success: the parsed JSON body is returned
when the body is valid JSON, and a connection-kind error (never a
server-kind one) is raised when it is not.  The source's `else` branch
raising an `ApiConnectionError` for an `HTTPError` outside [400,600) is
unreachable. -/
theorem claim_C5_other_status (r : HttpResponse)
    (h1 : r.statusCode < 400 ∨ 600 ≤ r.statusCode) (h2 : r.statusCode ≠ 204) :
    (∀ j, r.bodyJson = some j → handleResponse r = .ok j) ∧
    (r.bodyJson = none →
      handleResponse r = .error (.apiConnection jsonDecodeFailureMessage)) := by
  constructor
  · intro j hj
    unfold handleResponse
    rw [if_neg (by omega), if_neg h2, hj]
  · intro hj
    unfold handleResponse
    rw [if_neg (by omega), if_neg h2, hj]

/-- Witness for the amended claim C5 at status 300 with a JSON body. -/
theorem claim_C5_other_status_witness :
    ((300 : Nat) < 400 ∨ 600 ≤ (300 : Nat)) ∧ (300 : Nat) ≠ 204 ∧
    handleResponse ⟨300, "\x7b\"a\": 1\x7d", some (.obj [("a", .num 1)])⟩ =
      .ok (.obj [("a", .num 1)]) :=
  ⟨Or.inl (by decide), by decide,
   (claim_C5_other_status ⟨300, "\x7b\"a\": 1\x7d", some (.obj [("a", .num 1)])⟩
     (Or.inl (by decide)) (by decide)).1 (.obj [("a", .num 1)]) rfl⟩

/-- Claim C2 failing input: a 404 whose body parses as the JSON array
[1, 2] makes the message extraction evaluate `[1, 2].get(...)`, which
raises an `AttributeError` that neither `except` clause catches — instead
of an `ApiValidationError` carrying the raw body text, as the claim (and
the docstring of `_handle_response`) promises for every 4xx response. -/
theorem claim_C2_failing_input :
    handleResponse ⟨404, "[1, 2]", some (.arr [.num 1, .num 2])⟩ =
      .error (.attributeError "'list' object has no attribute 'get'") ∧
    handleResponse ⟨404, "[1, 2]", some (.arr [.num 1, .num 2])⟩ ≠
      .error (.apiValidation 404 (.str "[1, 2]")) := by
  refine ⟨rfl, fun hcontra => ?_⟩
  have h2 : (Except.error (PyError.attributeError "'list' object has no attribute 'get'") :
      Except PyError Json) = .error (.apiValidation 404 (.str "[1, 2]")) := hcontra
  simp at h2

/-- Claim C3 failing input: a 500 whose body parses as the JSON string
"boom" makes the message extraction evaluate `"boom".get(...)`, which
raises an `AttributeError` — instead of an `ApiServerError` carrying the
raw body text, as the claim (and the docstring of `_handle_response`)
promises for every 5xx response. -/
theorem claim_C3_failing_input :
    handleResponse ⟨500, "\"boom\"", some (.str "boom")⟩ =
      .error (.attributeError "'str' object has no attribute 'get'") ∧
    handleResponse ⟨500, "\"boom\"", some (.str "boom")⟩ ≠
      .error (.apiServer 500 (.str "\"boom\"")) := by
  refine ⟨rfl, fun hcontra => ?_⟩
  have h2 : (Except.error (PyError.attributeError "'str' object has no attribute 'get'") :
      Except PyError Json) = .error (.apiServer 500 (.str "\"boom\"")) := hcontra
  simp at h2

/-- Claim C6 (spec-modelled retry engine): for every logical call, at most
the configured number of retries is performed; the backoff delays slept
are exactly the seconds 1, 2, 4, ... (consecutive powers of two, hence
strictly increasing and starting at 1 second); the outcome of the final
attempt is processed by the normal response-handling rules; and when every
attempt inside the budget meets a response with a transient status code
from {429, 500, 502, 503, 504}, the full retry budget is used. -/
theorem claim_C6_retry_backoff (retries : Nat) (outcomes : Nat → HttpOutcome) :
    (callWithRetry retries outcomes).2.1 ≤ retries ∧
    (callWithRetry retries outcomes).2.2 =
      (List.range (callWithRetry retries outcomes).2.1).map (fun k => 2 ^ k) ∧
    List.Chain' (fun a b => a < b) (callWithRetry retries outcomes).2.2 ∧
    ((callWithRetry retries outcomes).2.1 ≠ 0 →
      (callWithRetry retries outcomes).2.2.head? = some 1) ∧
    (callWithRetry retries outcomes).1 =
      processOutcome (outcomes (callWithRetry retries outcomes).2.1) ∧
    ((∀ i, i < retries → isTransientOutcome (outcomes i) = true) →
      (callWithRetry retries outcomes).2.1 = retries) := by
  obtain ⟨h1, h2, h3⟩ := callWithRetryAux_spec outcomes retries 0
  have h2' : (callWithRetry retries outcomes).2.2 =
      (List.range (callWithRetry retries outcomes).2.1).map (fun k => 2 ^ k) := by
    unfold callWithRetry
    rw [h2]
    exact List.map_congr_left fun a _ => by rw [Nat.zero_add]
  refine ⟨h1, h2', ?_, ?_, ?_, ?_⟩
  · rw [h2']
    refine List.Pairwise.chain' ?_
    refine List.Pairwise.map _ (fun a b hab => ?_)
      (List.pairwise_lt_range (callWithRetry retries outcomes).2.1)
    exact Nat.pow_lt_pow_right (by norm_num) hab
  · intro hne
    rw [h2']
    obtain ⟨m, hm⟩ := Nat.exists_eq_succ_of_ne_zero hne
    rw [hm, List.range_succ_eq_map]
    rfl
  · unfold callWithRetry
    rw [h3, Nat.zero_add]
  · intro hall
    exact callWithRetryAux_all_transient outcomes retries 0
      (fun i hi => by simpa using hall i hi)

/-- Witness for claim C6: three configured retries against a wire that
answers 503 on every attempt use the whole budget, sleeping 1s, 2s, 4s,
and finalize with the server error of the fourth response. -/
theorem claim_C6_retry_backoff_witness :
    (∀ i, i < 3 → isTransientOutcome
      ((fun _ => HttpOutcome.response ⟨503, "oops", none⟩) i) = true) ∧
    (callWithRetry 3 (fun _ => HttpOutcome.response ⟨503, "oops", none⟩)).2.1 = 3 ∧
    (callWithRetry 3 (fun _ => HttpOutcome.response ⟨503, "oops", none⟩)).2.2 =
      [1, 2, 4] ∧
    (callWithRetry 3 (fun _ => HttpOutcome.response ⟨503, "oops", none⟩)).1 =
      .error (.apiServer 503 (.str "oops")) :=
  ⟨fun _ _ => rfl,
   (claim_C6_retry_backoff 3 (fun _ => HttpOutcome.response ⟨503, "oops", none⟩)).2.2.2.2.2
     (fun _ _ => rfl),
   rfl, rfl⟩
